import Mathlib

/-!
Shallow embedding of the netatmo-exporter refresh/cache/projection core.

Time model: Go `time.Time` is modelled as an `Int` counting seconds since
year 1 (Go's internal representation), so `t.IsZero()` is `t = 0` and
`t.Unix()` is `t - epochOffset`.  `time.Unix(sec, 0)` is `sec + epochOffset`.
Durations and thresholds are `Int` seconds.  Metric values are modelled as
`Int` (the claims never depend on fractional parts).
-/

namespace NetatmoExporter

/-- Seconds between year 1 (Go time zero) and the Unix epoch. -/
def epochOffset : Int := 62135596800

/-- Go `time.Unix(sec, 0)` in the internal seconds representation. -/
def timeUnix (sec : Int) : Int := sec + epochOffset

/-- Go helper `convertTime` from the collector package: 0 for the zero
time, otherwise the Unix seconds of the instant. -/
def convertTime (t : Int) : Int := if t = 0 then 0 else t - epochOffset

/-- One Prometheus metric descriptor of the repository (each constructor is
one `prometheus.NewDesc` variable from the source). -/
inductive Desc where
  | netatmoUp | refreshIntervalD | refreshTimestampD | refreshDurationD | cacheTimestampD
  | updated | temp | humidity | co2 | noise | pressure
  | windStrength | windDirection | rain | battery | wifi | rf
  | v2Updated | v2Temp | v2Humidity | v2CO2 | v2Noise | v2Pressure
  | v2Rain | v2WindStrength | v2WindDirection | v2Battery | v2Wifi | v2RF | v2HealthIndex
  | v2WeatherUp | v2WeatherRefreshInterval | v2WeatherRefreshTimestamp
  | v2WeatherRefreshDuration | v2WeatherCacheTimestamp
  | v2HomecoachUp | v2HomecoachRefreshInterval | v2HomecoachRefreshTimestamp
  | v2HomecoachRefreshDuration | v2HomecoachCacheTimestamp
  deriving DecidableEq

/-- One metric sent to the Prometheus channel: descriptor, label values and
the (gauge) value. -/
structure Observation where
  desc : Desc
  labels : List String
  value : Int
  deriving DecidableEq

/-- Weather `netatmo.DashboardData`: every measurement is a nullable
pointer in Go, hence an `Option`. -/
structure DashboardData where
  LastMeasure : Option Int
  Temperature : Option Int
  Humidity : Option Int
  CO2 : Option Int
  Noise : Option Int
  Pressure : Option Int
  WindStrength : Option Int
  WindAngle : Option Int
  Rain : Option Int
  deriving DecidableEq

/-- Weather `netatmo.Device` (the fields the collectors read). -/
structure Device where
  ID : String
  ModuleName : String
  HomeName : String
  StationName : String
  BatteryPercent : Option Int
  WifiStatus : Option Int
  RFStatus : Option Int
  DashboardData : DashboardData
  deriving DecidableEq

/-- One top-level station device together with its linked modules, as
iterated by `Collect` (`dev` plus `dev.LinkedModules`; the modules' own
links are never read by the source). -/
structure StationEntry where
  base : Device
  LinkedModules : List Device
  deriving DecidableEq

/-- Weather `netatmo.DeviceCollection` as consumed via `.Devices()`. -/
structure DeviceCollection where
  devices : List StationEntry
  deriving DecidableEq

/-- Homecoach dashboard data (`HomecoachResponse` devices carry plain,
non-nullable measurement fields). -/
structure HCDashboardData where
  TimeUTC : Int
  Temperature : Int
  CO2 : Int
  Humidity : Int
  Noise : Int
  Pressure : Int
  HealthIndex : Int
  deriving DecidableEq

/-- One homecoach device (the fields read by the collectors). -/
structure HCDevice where
  ID : String
  StationName : String
  WifiStatus : Int
  DashboardData : HCDashboardData
  deriving DecidableEq

/-- `HomecoachResponse` as consumed via `.Body.Devices`. -/
structure HomecoachResponse where
  devices : List HCDevice
  deriving DecidableEq

/-- Emission of one metric guarded by a nil check in the source
(`if data.X != nil { sendMetric(... *data.X ...) }`). -/
def optObs (v : Option Int) (mk : Int → Observation) : List Observation :=
  match v with
  | some x => [mk x]
  | none => []

/-- `NetatmoCollector.collectData` (legacy weather path): fallback module
name, nil `LastMeasure` guard, stale guard, then `updated` plus one
observation per present metric. -/
def collectData (now staleThreshold : Int) (device : Device)
    (stationName homeName : String) : List Observation :=
  let moduleName := if device.ModuleName = "" then "id-" ++ device.ID else device.ModuleName
  let data := device.DashboardData
  match data.LastMeasure with
  | none => []
  | some lm =>
    let date := timeUnix lm
    let dataAge := now - date
    if dataAge > staleThreshold then []
    else
      let L := [moduleName, stationName, homeName]
      ⟨.updated, L, lm⟩ ::
        (optObs data.Temperature (fun v => ⟨.temp, L, v⟩) ++
         optObs data.Humidity (fun v => ⟨.humidity, L, v⟩) ++
         optObs data.CO2 (fun v => ⟨.co2, L, v⟩) ++
         optObs data.Noise (fun v => ⟨.noise, L, v⟩) ++
         optObs data.Pressure (fun v => ⟨.pressure, L, v⟩) ++
         optObs data.WindStrength (fun v => ⟨.windStrength, L, v⟩) ++
         optObs data.WindAngle (fun v => ⟨.windDirection, L, v⟩) ++
         optObs data.Rain (fun v => ⟨.rain, L, v⟩) ++
         optObs device.BatteryPercent (fun v => ⟨.battery, L, v⟩) ++
         optObs device.WifiStatus (fun v => ⟨.wifi, L, v⟩) ++
         optObs device.RFStatus (fun v => ⟨.rf, L, v⟩))

/-- `UnifiedCollectorV2.collectWeatherDeviceV2`: same guards as the legacy
path, with the unified label set `[device_class, device_id, home, module,
station]`. -/
def collectWeatherDeviceV2 (now staleThreshold : Int) (device : Device)
    (stationName homeName : String) : List Observation :=
  let moduleName := if device.ModuleName = "" then "id-" ++ device.ID else device.ModuleName
  let data := device.DashboardData
  match data.LastMeasure with
  | none => []
  | some lm =>
    let date := timeUnix lm
    let dataAge := now - date
    if dataAge > staleThreshold then []
    else
      let L := ["weather", device.ID, homeName, moduleName, stationName]
      ⟨.v2Updated, L, lm⟩ ::
        (optObs data.Temperature (fun v => ⟨.v2Temp, L, v⟩) ++
         optObs data.Humidity (fun v => ⟨.v2Humidity, L, v⟩) ++
         optObs data.CO2 (fun v => ⟨.v2CO2, L, v⟩) ++
         optObs data.Noise (fun v => ⟨.v2Noise, L, v⟩) ++
         optObs data.Pressure (fun v => ⟨.v2Pressure, L, v⟩) ++
         optObs data.WindStrength (fun v => ⟨.v2WindStrength, L, v⟩) ++
         optObs data.WindAngle (fun v => ⟨.v2WindDirection, L, v⟩) ++
         optObs data.Rain (fun v => ⟨.v2Rain, L, v⟩) ++
         optObs device.BatteryPercent (fun v => ⟨.v2Battery, L, v⟩) ++
         optObs device.WifiStatus (fun v => ⟨.v2Wifi, L, v⟩) ++
         optObs device.RFStatus (fun v => ⟨.v2RF, L, v⟩))

/-- Result of one upstream read function call (`(*T, error)` in Go; the
in-repository fetchers return a non-nil payload exactly when the error is
nil). -/
inductive Fetch (α : Type) where
  | ok (data : α)
  | fail (e : String)
  deriving DecidableEq

/-- Refresh/cache state shared by `NetatmoCollector` and
`HomeCoachCollector` (identical field sets; `α` is the cached payload
type, `*netatmo.DeviceCollection` resp. `*HomeCoachResponse`).  Go zero
values: zero times are `0`, nil pointers are `none`. -/
structure CollectorState (α : Type) where
  lastRefresh : Int
  lastRefreshError : Option String
  lastRefreshDuration : Int
  cacheTimestamp : Int
  cachedData : Option α
  deriving DecidableEq

/-- The state a fresh collector starts in (`New` / `NewHomeCoachCollector`
leave all cache fields at their Go zero values). -/
def initState {α : Type} : CollectorState α :=
  ⟨0, none, 0, 0, none⟩

/-- `NetatmoCollector.RefreshData` / `HomeCoachCollector.refreshData` as a
state transformer: sets `lastRefresh = now`, records the error of the
attempt and the attempt duration, and on success commits `cacheTimestamp`
and `cachedData`; on failure it returns before touching the cache. -/
def RefreshData {α : Type} (s : CollectorState α) (now : Int)
    (res : Fetch α) (dur : Int) : CollectorState α :=
  match res with
  | .fail e =>
    { s with lastRefresh := now, lastRefreshError := some e, lastRefreshDuration := dur }
  | .ok data =>
    { s with lastRefresh := now, lastRefreshError := none, lastRefreshDuration := dur,
             cacheTimestamp := now, cachedData := some data }

/-- One completed operation on a single source's state: a finished refresh
attempt (with the `now` it was triggered at, the upstream result and the
measured duration), or a scrape-time read (`Collect` reads the state but
mutates nothing itself). -/
inductive Op (α : Type) where
  | refresh (now : Int) (res : Fetch α) (dur : Int)
  | read
  deriving DecidableEq

/-- Well-formedness of an operation: refresh attempts happen at clock
values after the Go zero time (`time.Now()` is never the zero time). -/
def Op.wf {α : Type} : Op α → Prop
  | .refresh now _ _ => 0 < now
  | .read => True

/-- Whether an operation is a successful refresh attempt. -/
def Op.success {α : Type} : Op α → Bool
  | .refresh _ (.ok _) _ => true
  | _ => false

/-- Effect of one completed operation on the collector state. -/
def step {α : Type} (s : CollectorState α) (op : Op α) : CollectorState α :=
  match op with
  | .refresh now res dur => RefreshData s now res dur
  | .read => s

/-- State after a sequence of completed operations, from the initial
state. -/
def runTrace {α : Type} (ops : List (Op α)) : CollectorState α :=
  ops.foldl step initState

/-- The most recent refresh attempt in an operation sequence, if any. -/
def lastAttempt? {α : Type} : List (Op α) → Option (Int × Fetch α × Int)
  | [] => none
  | op :: rest =>
    match lastAttempt? rest with
    | some x => some x
    | none =>
      match op with
      | .refresh now res dur => some (now, res, dur)
      | .read => none

/-- The five per-source status metrics emitted at the top of
`NetatmoCollector.Collect` (up, refresh interval, last refresh time, last
refresh duration, cache timestamp); the up value is 0 when no refresh was
ever attempted or the last attempt errored. -/
def legacyMeta {α : Type} (s : CollectorState α) (refreshInterval : Int) :
    List Observation :=
  let upValue : Int := if s.lastRefresh = 0 ∨ s.lastRefreshError.isSome then 0 else 1
  [⟨.netatmoUp, [], upValue⟩,
   ⟨.refreshIntervalD, [], refreshInterval⟩,
   ⟨.refreshTimestampD, [], convertTime s.lastRefresh⟩,
   ⟨.refreshDurationD, [], s.lastRefreshDuration⟩,
   ⟨.cacheTimestampD, [], convertTime s.cacheTimestamp⟩]

/-- Per-source cache state of `UnifiedCollectorV2` (one copy for weather,
one for homecoach; note there is no separate cache timestamp field). -/
structure V2CacheState (α : Type) where
  lastRefresh : Int
  lastRefreshError : Option String
  lastRefreshDuration : Int
  cachedData : Option α
  deriving DecidableEq

/-- The V2 cache state a fresh `UnifiedCollector` starts with. -/
def initV2Cache {α : Type} : V2CacheState α :=
  ⟨0, none, 0, none⟩

/-- `UnifiedCollectorV2.refreshWeather` / `refreshHomecoach` as a state
transformer: records `lastRefresh = now` and the attempt's error and
duration; on success commits `cachedData`, on failure returns first. -/
def refreshV2 {α : Type} (s : V2CacheState α) (now : Int)
    (res : Fetch α) (dur : Int) : V2CacheState α :=
  match res with
  | .fail e =>
    { s with lastRefresh := now, lastRefreshError := some e, lastRefreshDuration := dur }
  | .ok data =>
    { s with lastRefresh := now, lastRefreshError := none, lastRefreshDuration := dur,
             cachedData := some data }

/-- Effect of one completed operation on a V2 per-source cache state. -/
def stepV2 {α : Type} (s : V2CacheState α) (op : Op α) : V2CacheState α :=
  match op with
  | .refresh now res dur => refreshV2 s now res dur
  | .read => s

/-- V2 per-source cache state after a sequence of completed operations. -/
def runTraceV2 {α : Type} (ops : List (Op α)) : V2CacheState α :=
  ops.foldl stepV2 initV2Cache

/-- Full `UnifiedCollectorV2` state: enable flags, configuration, and one
cache per source. -/
structure V2State where
  enableWeather : Bool
  enableHomecoach : Bool
  refreshInterval : Int
  staleThreshold : Int
  weather : V2CacheState DeviceCollection
  homecoach : V2CacheState HomecoachResponse
  deriving DecidableEq

/-- `UnifiedCollectorV2.collectWeatherMetaV2`: the five weather status
metrics (up, refresh interval, last refresh time, last refresh duration,
cache updated time — the last two both derive from `weatherLastRefresh`). -/
def collectWeatherMetaV2 (s : V2State) : List Observation :=
  let upValue : Int :=
    if s.weather.lastRefresh = 0 ∨ s.weather.lastRefreshError.isSome then 0 else 1
  [⟨.v2WeatherUp, [], upValue⟩,
   ⟨.v2WeatherRefreshInterval, [], s.refreshInterval⟩,
   ⟨.v2WeatherRefreshTimestamp, [], convertTime s.weather.lastRefresh⟩,
   ⟨.v2WeatherRefreshDuration, [], s.weather.lastRefreshDuration⟩,
   ⟨.v2WeatherCacheTimestamp, [], convertTime s.weather.lastRefresh⟩]

/-- `UnifiedCollectorV2.collectHomecoachMetaV2`: the five homecoach status
metrics. -/
def collectHomecoachMetaV2 (s : V2State) : List Observation :=
  let upValue : Int :=
    if s.homecoach.lastRefresh = 0 ∨ s.homecoach.lastRefreshError.isSome then 0 else 1
  [⟨.v2HomecoachUp, [], upValue⟩,
   ⟨.v2HomecoachRefreshInterval, [], s.refreshInterval⟩,
   ⟨.v2HomecoachRefreshTimestamp, [], convertTime s.homecoach.lastRefresh⟩,
   ⟨.v2HomecoachRefreshDuration, [], s.homecoach.lastRefreshDuration⟩,
   ⟨.v2HomecoachCacheTimestamp, [], convertTime s.homecoach.lastRefresh⟩]

/-- `UnifiedCollectorV2.collectWeatherV2`: for each cached station device
and its linked modules, project via `collectWeatherDeviceV2`. -/
def collectWeatherV2 (s : V2State) (now : Int) : List Observation :=
  match s.weather.cachedData with
  | none => []
  | some dc =>
    dc.devices.flatMap (fun entry =>
      collectWeatherDeviceV2 now s.staleThreshold entry.base
          entry.base.StationName entry.base.HomeName ++
        entry.LinkedModules.flatMap (fun m =>
          collectWeatherDeviceV2 now s.staleThreshold m
            entry.base.StationName entry.base.HomeName))

/-- `UnifiedCollectorV2.collectHomecoachV2`: for each cached homecoach
device, emit all eight metrics unconditionally (no measurement-age
check). -/
def collectHomecoachV2 (s : V2State) : List Observation :=
  match s.homecoach.cachedData with
  | none => []
  | some resp =>
    resp.devices.flatMap (fun device =>
      let L := ["homecoach", device.ID, "", "", device.StationName]
      let dd := device.DashboardData
      [⟨.v2Updated, L, dd.TimeUTC⟩,
       ⟨.v2Temp, L, dd.Temperature⟩,
       ⟨.v2Humidity, L, dd.Humidity⟩,
       ⟨.v2CO2, L, dd.CO2⟩,
       ⟨.v2Noise, L, dd.Noise⟩,
       ⟨.v2Pressure, L, dd.Pressure⟩,
       ⟨.v2HealthIndex, L, dd.HealthIndex⟩,
       ⟨.v2Wifi, L, device.WifiStatus⟩])

/-- Observations produced by one `UnifiedCollectorV2.Collect` call: per
enabled source, its meta metrics followed by its projected data (the
refresh triggers spawn background work and emit nothing themselves). -/
def CollectV2 (s : V2State) (now : Int) : List Observation :=
  (if s.enableWeather then collectWeatherMetaV2 s ++ collectWeatherV2 s now else []) ++
    (if s.enableHomecoach then collectHomecoachMetaV2 s ++ collectHomecoachV2 s else [])

/-- Scheduler-level state for one legacy source: the collector state, the
`now` arguments of `go RefreshData(now)` goroutines that were spawned but
have not yet executed, and the number of upstream fetches performed. -/
structure SchedState where
  col : CollectorState DeviceCollection
  pending : List Int
  fetchCount : Nat
  deriving DecidableEq

/-- Scheduler events: a scrape (the trigger step at the top of `Collect`:
check `now - lastRefresh >= RefreshInterval` and spawn `go
RefreshData(now)`; `lastRefresh` is not touched here), or the execution of
the i-th spawned goroutine with a given upstream result.  The spawned
goroutine may run arbitrarily later. -/
inductive SchedOp where
  | scrape (now : Int)
  | run (i : Nat) (res : Fetch DeviceCollection) (dur : Int)
  deriving DecidableEq

/-- One scheduler step under a configured refresh interval. -/
def schedStep (refreshInterval : Int) (s : SchedState) (op : SchedOp) : SchedState :=
  match op with
  | .scrape now =>
    if now - s.col.lastRefresh ≥ refreshInterval then
      { s with pending := s.pending ++ [now] }
    else s
  | .run i res dur =>
    match s.pending.get? i with
    | none => s
    | some now =>
      { col := RefreshData s.col now res dur,
        pending := s.pending.eraseIdx i,
        fetchCount := s.fetchCount + 1 }

/-- Scheduler state after a sequence of events, from a fresh collector. -/
def schedRun (refreshInterval : Int) (ops : List SchedOp) : SchedState :=
  ops.foldl (schedStep refreshInterval) ⟨initState, [], 0⟩

/-- The optional source field a legacy weather sensor metric descriptor
reads from a device (`none` for descriptors that are not per-device
optional metrics). -/
def legacyMetricField (dev : Device) : Desc → Option (Option Int)
  | .temp => some dev.DashboardData.Temperature
  | .humidity => some dev.DashboardData.Humidity
  | .co2 => some dev.DashboardData.CO2
  | .noise => some dev.DashboardData.Noise
  | .pressure => some dev.DashboardData.Pressure
  | .windStrength => some dev.DashboardData.WindStrength
  | .windDirection => some dev.DashboardData.WindAngle
  | .rain => some dev.DashboardData.Rain
  | .battery => some dev.BatteryPercent
  | .wifi => some dev.WifiStatus
  | .rf => some dev.RFStatus
  | _ => none

/-- The optional source field a V2 weather sensor metric descriptor reads
from a device. -/
def v2MetricField (dev : Device) : Desc → Option (Option Int)
  | .v2Temp => some dev.DashboardData.Temperature
  | .v2Humidity => some dev.DashboardData.Humidity
  | .v2CO2 => some dev.DashboardData.CO2
  | .v2Noise => some dev.DashboardData.Noise
  | .v2Pressure => some dev.DashboardData.Pressure
  | .v2WindStrength => some dev.DashboardData.WindStrength
  | .v2WindDirection => some dev.DashboardData.WindAngle
  | .v2Rain => some dev.DashboardData.Rain
  | .v2Battery => some dev.BatteryPercent
  | .v2Wifi => some dev.WifiStatus
  | .v2RF => some dev.RFStatus
  | _ => none

/-- The thirteen V2 sensor-data descriptors. -/
def v2SensorDescs : List Desc :=
  [.v2Updated, .v2Temp, .v2Humidity, .v2CO2, .v2Noise, .v2Pressure,
   .v2Rain, .v2WindStrength, .v2WindDirection, .v2Battery, .v2Wifi, .v2RF,
   .v2HealthIndex]

/-- The five weather status descriptors emitted by `collectWeatherMetaV2`. -/
def v2WeatherStatusDescs : List Desc :=
  [.v2WeatherUp, .v2WeatherRefreshInterval, .v2WeatherRefreshTimestamp,
   .v2WeatherRefreshDuration, .v2WeatherCacheTimestamp]

/-- The five homecoach status descriptors emitted by
`collectHomecoachMetaV2`. -/
def v2HomecoachStatusDescs : List Desc :=
  [.v2HomecoachUp, .v2HomecoachRefreshInterval, .v2HomecoachRefreshTimestamp,
   .v2HomecoachRefreshDuration, .v2HomecoachCacheTimestamp]

/-- Well-formedness of an operation sequence: every refresh attempt
happens at a clock value after the Go zero time. -/
def OpsWf {α : Type} (ops : List (Op α)) : Prop :=
  ∀ op ∈ ops, Op.wf op

/-- An observation attributable to the weather source in the V2 unified
output: a weather status metric, or a sensor metric whose leading
`device_class` label is `"weather"`. -/
def fromWeatherV2 (o : Observation) : Prop :=
  o.desc ∈ v2WeatherStatusDescs ∨
    (o.desc ∈ v2SensorDescs ∧ o.labels.head? = some "weather")

/-- An observation attributable to the homecoach source in the V2 unified
output. -/
def fromHomecoachV2 (o : Observation) : Prop :=
  o.desc ∈ v2HomecoachStatusDescs ∨
    (o.desc ∈ v2SensorDescs ∧ o.labels.head? = some "homecoach")

theorem mem_optObs {v : Option Int} {mk : Int → Observation} {o : Observation}
    (h : o ∈ optObs v mk) : ∃ x, v = some x ∧ o = mk x := by
  cases v with
  | none => simp [optObs] at h
  | some x =>
    simp [optObs] at h
    exact ⟨x, rfl, h⟩

/-- Every observation of the legacy weather projection carries the
fallback-derived label triple, and is either the `updated` timestamp or a
metric whose source field is present. -/
theorem collectData_char (now th : Int) (dev : Device) (st hn : String) :
    ∀ o ∈ collectData now th dev st hn,
      o.labels = [if dev.ModuleName = "" then "id-" ++ dev.ID else dev.ModuleName, st, hn] ∧
        (o.desc = .updated ∨ ∃ v, legacyMetricField dev o.desc = some (some v) ∧ o.value = v) := by
  intro o ho
  simp only [collectData] at ho
  rcases hLM : dev.DashboardData.LastMeasure with _ | lm
  · rw [hLM] at ho
    simp at ho
  · rw [hLM] at ho
    dsimp only at ho
    by_cases hstale : now - timeUnix lm > th
    · rw [if_pos hstale] at ho
      simp at ho
    · rw [if_neg hstale] at ho
      rcases List.mem_cons.mp ho with rfl | ho
      · exact ⟨rfl, Or.inl rfl⟩
      · simp only [List.mem_append] at ho
        rcases ho with ((((((((((ho | ho) | ho) | ho) | ho) | ho) | ho) | ho) | ho) | ho) | ho) <;>
          (obtain ⟨v, hv, rfl⟩ := mem_optObs ho;
           exact ⟨rfl, Or.inr ⟨v, by simp [legacyMetricField, hv], rfl⟩⟩)

/-- Every observation of the V2 weather projection carries the unified
label quintuple led by the class label `"weather"`, has a sensor
descriptor, and is either the `updated` timestamp or a metric whose
source field is present. -/
theorem collectWeatherDeviceV2_char (now th : Int) (dev : Device) (st hn : String) :
    ∀ o ∈ collectWeatherDeviceV2 now th dev st hn,
      o.labels = ["weather", dev.ID, hn,
          if dev.ModuleName = "" then "id-" ++ dev.ID else dev.ModuleName, st] ∧
        o.desc ∈ v2SensorDescs ∧
        (o.desc = .v2Updated ∨ ∃ v, v2MetricField dev o.desc = some (some v) ∧ o.value = v) := by
  intro o ho
  simp only [collectWeatherDeviceV2] at ho
  rcases hLM : dev.DashboardData.LastMeasure with _ | lm
  · rw [hLM] at ho
    simp at ho
  · rw [hLM] at ho
    dsimp only at ho
    by_cases hstale : now - timeUnix lm > th
    · rw [if_pos hstale] at ho
      simp at ho
    · rw [if_neg hstale] at ho
      rcases List.mem_cons.mp ho with rfl | ho
      · exact ⟨rfl, by simp [v2SensorDescs], Or.inl rfl⟩
      · simp only [List.mem_append] at ho
        rcases ho with ((((((((((ho | ho) | ho) | ho) | ho) | ho) | ho) | ho) | ho) | ho) | ho) <;>
          (obtain ⟨v, hv, rfl⟩ := mem_optObs ho;
           exact ⟨rfl, by simp [v2SensorDescs],
             Or.inr ⟨v, by simp [v2MetricField, hv], rfl⟩⟩)

theorem lastAttempt_mem {α : Type} :
    ∀ {ops : List (Op α)} {n : Int} {res : Fetch α} {d : Int},
      lastAttempt? ops = some (n, res, d) → Op.refresh n res d ∈ ops := by
  intro ops
  induction ops with
  | nil => intro n res d h; simp [lastAttempt?] at h
  | cons op rest ih =>
    intro n res d h
    simp only [lastAttempt?] at h
    cases hrest : lastAttempt? rest with
    | some x =>
      rw [hrest] at h
      cases h
      exact List.mem_cons_of_mem _ (ih hrest)
    | none =>
      rw [hrest] at h
      cases op with
      | refresh n2 res2 d2 =>
        simp at h
        obtain ⟨rfl, rfl, rfl⟩ := h
        exact List.mem_cons_self _ _
      | read => simp at h

theorem foldl_step_none {α : Type} :
    ∀ (ops : List (Op α)) (s : CollectorState α),
      lastAttempt? ops = none → ops.foldl step s = s := by
  intro ops
  induction ops with
  | nil => intro s _; rfl
  | cons op rest ih =>
    intro s h
    simp only [lastAttempt?] at h
    cases hrest : lastAttempt? rest with
    | some x => rw [hrest] at h; cases h
    | none =>
      rw [hrest] at h
      cases op with
      | refresh n2 res2 d2 => simp at h
      | read =>
        show rest.foldl step s = s
        exact ih s hrest

theorem foldl_step_last {α : Type} :
    ∀ (ops : List (Op α)) (s : CollectorState α) (n : Int) (res : Fetch α) (d : Int),
      lastAttempt? ops = some (n, res, d) →
        (ops.foldl step s).lastRefresh = n ∧
          (ops.foldl step s).lastRefreshError =
            (match res with | .fail e => some e | .ok _ => none) := by
  intro ops
  induction ops with
  | nil => intro s n res d h; simp [lastAttempt?] at h
  | cons op rest ih =>
    intro s n res d h
    simp only [lastAttempt?] at h
    cases hrest : lastAttempt? rest with
    | some x =>
      rw [hrest] at h
      cases h
      exact ih (step s op) n res d hrest
    | none =>
      rw [hrest] at h
      have hid : rest.foldl step (step s op) = step s op := foldl_step_none rest _ hrest
      cases op with
      | refresh n2 res2 d2 =>
        simp at h
        obtain ⟨rfl, rfl, rfl⟩ := h
        rw [List.foldl_cons, hid]
        cases res2 with
        | ok data => exact ⟨rfl, rfl⟩
        | fail e => exact ⟨rfl, rfl⟩
      | read => simp at h

theorem foldl_stepV2_none {α : Type} :
    ∀ (ops : List (Op α)) (s : V2CacheState α),
      lastAttempt? ops = none → ops.foldl stepV2 s = s := by
  intro ops
  induction ops with
  | nil => intro s _; rfl
  | cons op rest ih =>
    intro s h
    simp only [lastAttempt?] at h
    cases hrest : lastAttempt? rest with
    | some x => rw [hrest] at h; cases h
    | none =>
      rw [hrest] at h
      cases op with
      | refresh n2 res2 d2 => simp at h
      | read =>
        show rest.foldl stepV2 s = s
        exact ih s hrest

theorem foldl_stepV2_last {α : Type} :
    ∀ (ops : List (Op α)) (s : V2CacheState α) (n : Int) (res : Fetch α) (d : Int),
      lastAttempt? ops = some (n, res, d) →
        (ops.foldl stepV2 s).lastRefresh = n ∧
          (ops.foldl stepV2 s).lastRefreshError =
            (match res with | .fail e => some e | .ok _ => none) := by
  intro ops
  induction ops with
  | nil => intro s n res d h; simp [lastAttempt?] at h
  | cons op rest ih =>
    intro s n res d h
    simp only [lastAttempt?] at h
    cases hrest : lastAttempt? rest with
    | some x =>
      rw [hrest] at h
      cases h
      exact ih (stepV2 s op) n res d hrest
    | none =>
      rw [hrest] at h
      have hid : rest.foldl stepV2 (stepV2 s op) = stepV2 s op := foldl_stepV2_none rest _ hrest
      cases op with
      | refresh n2 res2 d2 =>
        simp at h
        obtain ⟨rfl, rfl, rfl⟩ := h
        rw [List.foldl_cons, hid]
        cases res2 with
        | ok data => exact ⟨rfl, rfl⟩
        | fail e => exact ⟨rfl, rfl⟩
      | read => simp at h

theorem inv_preserved {α : Type} :
    ∀ (ops : List (Op α)) (s : CollectorState α), (∀ op ∈ ops, op.wf) →
      (s.cacheTimestamp ≠ 0 ↔ s.cachedData.isSome) →
      ((ops.foldl step s).cacheTimestamp ≠ 0 ↔ (ops.foldl step s).cachedData.isSome) := by
  intro ops
  induction ops with
  | nil => intro s _ hs; exact hs
  | cons op rest ih =>
    intro s hwf hs
    refine ih (step s op) (fun o ho => hwf o (List.mem_cons_of_mem _ ho)) ?_
    have hop : op.wf := hwf op (List.mem_cons_self _ _)
    cases op with
    | read => exact hs
    | refresh n res d =>
      cases res with
      | fail e => exact hs
      | ok data =>
        have hn : (0:Int) < n := hop
        constructor
        · intro _; rfl
        · intro _
          show n ≠ 0
          omega

theorem sensor_descs_not_status : ∀ d ∈ v2SensorDescs,
    d ∉ v2WeatherStatusDescs ∧ d ∉ v2HomecoachStatusDescs := by decide

theorem weather_status_descs_not_other : ∀ d ∈ v2WeatherStatusDescs,
    d ∉ v2HomecoachStatusDescs ∧ d ∉ v2SensorDescs := by decide

theorem homecoach_status_descs_not_other : ∀ d ∈ v2HomecoachStatusDescs,
    d ∉ v2WeatherStatusDescs ∧ d ∉ v2SensorDescs := by decide

theorem mem_collectWeatherMetaV2 (s : V2State) :
    ∀ o ∈ collectWeatherMetaV2 s, o.desc ∈ v2WeatherStatusDescs ∧ o.labels = [] := by
  intro o ho
  simp only [collectWeatherMetaV2, List.mem_cons, List.mem_singleton] at ho
  rcases ho with rfl | rfl | rfl | rfl | rfl | h
  · exact ⟨by simp [v2WeatherStatusDescs], rfl⟩
  · exact ⟨by simp [v2WeatherStatusDescs], rfl⟩
  · exact ⟨by simp [v2WeatherStatusDescs], rfl⟩
  · exact ⟨by simp [v2WeatherStatusDescs], rfl⟩
  · exact ⟨by simp [v2WeatherStatusDescs], rfl⟩
  · simp at h

theorem mem_collectHomecoachMetaV2 (s : V2State) :
    ∀ o ∈ collectHomecoachMetaV2 s, o.desc ∈ v2HomecoachStatusDescs ∧ o.labels = [] := by
  intro o ho
  simp only [collectHomecoachMetaV2, List.mem_cons, List.mem_singleton] at ho
  rcases ho with rfl | rfl | rfl | rfl | rfl | h
  · exact ⟨by simp [v2HomecoachStatusDescs], rfl⟩
  · exact ⟨by simp [v2HomecoachStatusDescs], rfl⟩
  · exact ⟨by simp [v2HomecoachStatusDescs], rfl⟩
  · exact ⟨by simp [v2HomecoachStatusDescs], rfl⟩
  · exact ⟨by simp [v2HomecoachStatusDescs], rfl⟩
  · simp at h

theorem mem_collectWeatherV2 (s : V2State) (now : Int) :
    ∀ o ∈ collectWeatherV2 s now,
      o.desc ∈ v2SensorDescs ∧ o.labels.head? = some "weather" := by
  intro o ho
  unfold collectWeatherV2 at ho
  cases hc : s.weather.cachedData with
  | none => rw [hc] at ho; simp at ho
  | some dc =>
    rw [hc] at ho
    dsimp only at ho
    rw [List.mem_flatMap] at ho
    obtain ⟨entry, _, hmem⟩ := ho
    rcases List.mem_append.mp hmem with hdev | hmods
    · obtain ⟨hl, hd, _⟩ :=
        collectWeatherDeviceV2_char now s.staleThreshold entry.base
          entry.base.StationName entry.base.HomeName o hdev
      exact ⟨hd, by rw [hl]; rfl⟩
    · rw [List.mem_flatMap] at hmods
      obtain ⟨m, _, hmem2⟩ := hmods
      obtain ⟨hl, hd, _⟩ :=
        collectWeatherDeviceV2_char now s.staleThreshold m
          entry.base.StationName entry.base.HomeName o hmem2
      exact ⟨hd, by rw [hl]; rfl⟩

theorem mem_collectHomecoachV2 (s : V2State) :
    ∀ o ∈ collectHomecoachV2 s,
      o.desc ∈ v2SensorDescs ∧ o.labels.head? = some "homecoach" := by
  intro o ho
  unfold collectHomecoachV2 at ho
  cases hc : s.homecoach.cachedData with
  | none => rw [hc] at ho; simp at ho
  | some resp =>
    rw [hc] at ho
    dsimp only at ho
    rw [List.mem_flatMap] at ho
    obtain ⟨device, _, hmem⟩ := ho
    simp only [List.mem_cons, List.mem_singleton] at hmem
    rcases hmem with rfl | rfl | rfl | rfl | rfl | rfl | rfl | rfl | h
    · exact ⟨by simp [v2SensorDescs], rfl⟩
    · exact ⟨by simp [v2SensorDescs], rfl⟩
    · exact ⟨by simp [v2SensorDescs], rfl⟩
    · exact ⟨by simp [v2SensorDescs], rfl⟩
    · exact ⟨by simp [v2SensorDescs], rfl⟩
    · exact ⟨by simp [v2SensorDescs], rfl⟩
    · exact ⟨by simp [v2SensorDescs], rfl⟩
    · exact ⟨by simp [v2SensorDescs], rfl⟩
    · simp at h

theorem mem_legacyMeta_up_iff {α : Type} (s : CollectorState α) (iv : Int) :
    ((⟨.netatmoUp, [], 1⟩ : Observation) ∈ legacyMeta s iv) ↔
      (s.lastRefresh ≠ 0 ∧ s.lastRefreshError = none) := by
  by_cases h0 : s.lastRefresh = 0 ∨ s.lastRefreshError.isSome
  · rcases h0 with h0 | h0
    · simp [legacyMeta, h0]
    · obtain ⟨e, he⟩ := Option.isSome_iff_exists.mp h0
      simp [legacyMeta, he]
  · rw [not_or] at h0
    simp [legacyMeta, h0.1, h0.2, Option.not_isSome_iff_eq_none.mp h0.2]

theorem mem_weatherMetaV2_up_iff (s : V2State) :
    ((⟨.v2WeatherUp, [], 1⟩ : Observation) ∈ collectWeatherMetaV2 s) ↔
      (s.weather.lastRefresh ≠ 0 ∧ s.weather.lastRefreshError = none) := by
  by_cases h0 : s.weather.lastRefresh = 0 ∨ s.weather.lastRefreshError.isSome
  · rcases h0 with h0 | h0
    · simp [collectWeatherMetaV2, h0]
    · obtain ⟨e, he⟩ := Option.isSome_iff_exists.mp h0
      simp [collectWeatherMetaV2, he]
  · rw [not_or] at h0
    simp [collectWeatherMetaV2, h0.1, h0.2, Option.not_isSome_iff_eq_none.mp h0.2]

theorem mem_homecoachMetaV2_up_iff (s : V2State) :
    ((⟨.v2HomecoachUp, [], 1⟩ : Observation) ∈ collectHomecoachMetaV2 s) ↔
      (s.homecoach.lastRefresh ≠ 0 ∧ s.homecoach.lastRefreshError = none) := by
  by_cases h0 : s.homecoach.lastRefresh = 0 ∨ s.homecoach.lastRefreshError.isSome
  · rcases h0 with h0 | h0
    · simp [collectHomecoachMetaV2, h0]
    · obtain ⟨e, he⟩ := Option.isSome_iff_exists.mp h0
      simp [collectHomecoachMetaV2, he]
  · rw [not_or] at h0
    simp [collectHomecoachMetaV2, h0.1, h0.2, Option.not_isSome_iff_eq_none.mp h0.2]

theorem lastState_ok_iff {α : Type} (ops : List (Op α)) (h : OpsWf ops) :
    ((runTrace ops).lastRefresh ≠ 0 ∧ (runTrace ops).lastRefreshError = none) ↔
      (∃ n dat d, lastAttempt? ops = some (n, Fetch.ok dat, d)) := by
  cases hla : lastAttempt? ops with
  | none =>
    have hinit : runTrace ops = initState := foldl_step_none ops _ hla
    rw [hinit]
    simp [initState]
  | some x =>
    obtain ⟨n, res, d⟩ := x
    obtain ⟨hR, hE⟩ := foldl_step_last ops initState n res d hla
    cases res with
    | ok dat =>
      have hn : (0:Int) < n := h _ (lastAttempt_mem hla)
      constructor
      · intro _; exact ⟨n, dat, d, rfl⟩
      · intro _
        refine ⟨?_, hE⟩
        rw [show (runTrace ops).lastRefresh = n from hR]
        omega
    | fail e =>
      constructor
      · rintro ⟨_, hE0⟩
        rw [show (runTrace ops).lastRefreshError = some e from hE] at hE0
        cases hE0
      · rintro ⟨n2, dat, d2, heq⟩
        simp at heq

theorem lastStateV2_ok_iff {α : Type} (ops : List (Op α)) (h : OpsWf ops) :
    ((runTraceV2 ops).lastRefresh ≠ 0 ∧ (runTraceV2 ops).lastRefreshError = none) ↔
      (∃ n dat d, lastAttempt? ops = some (n, Fetch.ok dat, d)) := by
  cases hla : lastAttempt? ops with
  | none =>
    have hinit : runTraceV2 ops = initV2Cache := foldl_stepV2_none ops _ hla
    rw [hinit]
    simp [initV2Cache]
  | some x =>
    obtain ⟨n, res, d⟩ := x
    obtain ⟨hR, hE⟩ := foldl_stepV2_last ops initV2Cache n res d hla
    cases res with
    | ok dat =>
      have hn : (0:Int) < n := h _ (lastAttempt_mem hla)
      constructor
      · intro _; exact ⟨n, dat, d, rfl⟩
      · intro _
        refine ⟨?_, hE⟩
        rw [show (runTraceV2 ops).lastRefresh = n from hR]
        omega
    | fail e =>
      constructor
      · rintro ⟨_, hE0⟩
        rw [show (runTraceV2 ops).lastRefreshError = some e from hE] at hE0
        cases hE0
      · rintro ⟨n2, dat, d2, heq⟩
        simp at heq

theorem last_ok_and_success_iff {α : Type} (ops : List (Op α)) :
    ((∃ n dat d, lastAttempt? ops = some (n, Fetch.ok dat, d)) ∧
        ∃ op ∈ ops, Op.success op = true) ↔
      (∃ n dat d, lastAttempt? ops = some (n, Fetch.ok dat, d)) := by
  constructor
  · exact And.left
  · intro h1
    refine ⟨h1, ?_⟩
    obtain ⟨n, dat, d, hla⟩ := h1
    exact ⟨_, lastAttempt_mem hla, rfl⟩

/-- C1 (counterexample): on the homecoach projection path
(`collectHomecoachV2`) an item whose own measurement timestamp is older
than the stale threshold still contributes its full set of eight
observations — the per-item staleness suppression is absent there, so the
claim that it applies on every data source's projection path is false. -/
theorem c1_counterexample :
    (timeUnix 1700000000 + 7200) -
        timeUnix ((⟨"hc1", "MyHome", 60, ⟨1700000000, 21, 800, 40, 35, 1013, 1⟩⟩ :
          HCDevice).DashboardData.TimeUTC) > (3600 : Int) ∧
      (collectHomecoachV2 ⟨true, true, 100, 3600, initV2Cache,
          ⟨5, none, 1, some ⟨[⟨"hc1", "MyHome", 60, ⟨1700000000, 21, 800, 40, 35, 1013, 1⟩⟩]⟩⟩⟩).length
        = 8 := by
  constructor
  · decide
  · rfl

/-- C1 (amended): per-item staleness suppression holds on both weather
projection paths — an item whose measurement timestamp is older than the
stale threshold contributes zero observations there — while the homecoach
projection paths emit every cached item regardless of its measurement
age. -/
theorem c1_weather_stale_suppressed (now th : Int) (dev : Device) (st hn : String)
    (lm : Int) (hlm : dev.DashboardData.LastMeasure = some lm)
    (hstale : now - timeUnix lm > th) :
    collectData now th dev st hn = [] ∧ collectWeatherDeviceV2 now th dev st hn = [] := by
  constructor
  · simp only [collectData]
    rw [hlm]
    simp [hstale]
  · simp only [collectWeatherDeviceV2]
    rw [hlm]
    simp [hstale]

/-- C1 (witness): the amended staleness suppression evaluated on a
concrete expired weather device. -/
theorem c1_weather_stale_suppressed_witness :
    ((⟨"d1", "Mod", "home", "stat", none, none, none,
          ⟨some 1700000000, some 21, none, none, none, none, none, none, none⟩⟩ :
        Device).DashboardData.LastMeasure = some 1700000000) ∧
      (timeUnix 1700000000 + 7200) - timeUnix 1700000000 > (3600 : Int) ∧
      collectData (timeUnix 1700000000 + 7200) 3600
          ⟨"d1", "Mod", "home", "stat", none, none, none,
            ⟨some 1700000000, some 21, none, none, none, none, none, none, none⟩⟩
          "stat" "home" = [] ∧
      collectWeatherDeviceV2 (timeUnix 1700000000 + 7200) 3600
          ⟨"d1", "Mod", "home", "stat", none, none, none,
            ⟨some 1700000000, some 21, none, none, none, none, none, none, none⟩⟩
          "stat" "home" = [] := by
  refine ⟨rfl, by decide, ?_⟩
  have := c1_weather_stale_suppressed (timeUnix 1700000000 + 7200) 3600
    ⟨"d1", "Mod", "home", "stat", none, none, none,
      ⟨some 1700000000, some 21, none, none, none, none, none, none, none⟩⟩
    "stat" "home" 1700000000 rfl (by decide)
  exact this

/-- C2: a failed refresh attempt leaves the cached snapshot and the cache
timestamp exactly as they were and records the error, on the legacy
`RefreshData` / homecoach `refreshData` path and on the V2 refresh path
alike; a committed item therefore continues to be served unchanged. -/
theorem c2_refresh_failure_serves_stale :
    ∀ (α : Type) (s : CollectorState α) (now : Int) (e : String) (dur : Int),
      (RefreshData s now (.fail e) dur).cachedData = s.cachedData ∧
        (RefreshData s now (.fail e) dur).cacheTimestamp = s.cacheTimestamp ∧
        (RefreshData s now (.fail e) dur).lastRefreshError = some e ∧
        ∀ (t : V2CacheState α),
          (refreshV2 t now (.fail e) dur).cachedData = t.cachedData ∧
            (refreshV2 t now (.fail e) dur).lastRefreshError = some e := by
  intro α s now e dur
  exact ⟨rfl, rfl, rfl, fun t => ⟨rfl, rfl⟩⟩

/-- C4: a metric whose value is absent in the cached snapshot is never
emitted by either weather projection path — no observation with that
metric's descriptor appears (the homecoach snapshot type has no absent
metric values at all, so no fabrication can arise there). -/
theorem c4_absent_metric_never_emitted (now th : Int) (dev : Device)
    (st hn : String) (d : Desc) :
    (legacyMetricField dev d = some none →
        ∀ o ∈ collectData now th dev st hn, o.desc ≠ d) ∧
      (v2MetricField dev d = some none →
        ∀ o ∈ collectWeatherDeviceV2 now th dev st hn, o.desc ≠ d) := by
  constructor
  · intro habs o ho hd
    rcases (collectData_char now th dev st hn o ho).2 with hupd | ⟨v, hv, _⟩
    · rw [hd] at hupd
      subst hupd
      simp [legacyMetricField] at habs
    · rw [hd] at hv
      rw [habs] at hv
      cases hv
  · intro habs o ho hd
    rcases (collectWeatherDeviceV2_char now th dev st hn o ho).2.2 with hupd | ⟨v, hv, _⟩
    · rw [hd] at hupd
      subst hupd
      simp [v2MetricField] at habs
    · rw [hd] at hv
      rw [habs] at hv
      cases hv

/-- C4 (witness): a concrete device with an absent temperature still emits
its `updated` observation, and that observation is not a temperature
observation. -/
theorem c4_absent_metric_never_emitted_witness :
    legacyMetricField
        ⟨"d1", "Mod", "home", "stat", none, none, none,
          ⟨some 1700000000, none, some 55, none, none, none, none, none, none⟩⟩ .temp
      = some none ∧
      (⟨.updated, ["Mod", "stat", "home"], 1700000000⟩ : Observation) ∈
        collectData (timeUnix 1700000000) 3600
          ⟨"d1", "Mod", "home", "stat", none, none, none,
            ⟨some 1700000000, none, some 55, none, none, none, none, none, none⟩⟩
          "stat" "home" ∧
      (⟨.updated, ["Mod", "stat", "home"], 1700000000⟩ : Observation).desc ≠ .temp := by
  refine ⟨rfl, by decide, ?_⟩
  exact (c4_absent_metric_never_emitted (timeUnix 1700000000) 3600
    ⟨"d1", "Mod", "home", "stat", none, none, none,
      ⟨some 1700000000, none, some 55, none, none, none, none, none, none⟩⟩
    "stat" "home" .temp).1 rfl _ (by decide)

/-- C6: at every state reachable by completed read/refresh operations, the
cache timestamp is set exactly when a snapshot is cached, and any
operation that leaves an error recorded did not update the snapshot or
its timestamp. -/
theorem c6_refresh_state_invariant (α : Type) (ops : List (Op α)) (h : OpsWf ops) :
    ((runTrace ops).cacheTimestamp ≠ 0 ↔ (runTrace ops).cachedData.isSome) ∧
      ∀ (s : CollectorState α) (op : Op α),
        (step s op).lastRefreshError.isSome →
          (step s op).cachedData = s.cachedData ∧
            (step s op).cacheTimestamp = s.cacheTimestamp := by
  constructor
  · exact inv_preserved ops initState h (by simp [initState])
  · intro s op hop
    cases op with
    | read => exact ⟨rfl, rfl⟩
    | refresh n res d =>
      cases res with
      | fail e => exact ⟨rfl, rfl⟩
      | ok dat => simp [step, RefreshData] at hop

/-- C6 (witness): the invariant evaluated after a concrete failed-then-
successful trace, and snapshot preservation across a concrete failing
step. -/
theorem c6_refresh_state_invariant_witness :
    OpsWf [Op.refresh 5 (Fetch.fail "boom") 2,
        Op.refresh 7 (Fetch.ok (⟨[]⟩ : DeviceCollection)) 3] ∧
      ((runTrace [Op.refresh 5 (Fetch.fail "boom") 2,
            Op.refresh 7 (Fetch.ok (⟨[]⟩ : DeviceCollection)) 3]).cacheTimestamp ≠ 0 ↔
        (runTrace [Op.refresh 5 (Fetch.fail "boom") 2,
            Op.refresh 7 (Fetch.ok (⟨[]⟩ : DeviceCollection)) 3]).cachedData.isSome) ∧
      (step (⟨7, none, 3, 7, some (⟨[]⟩ : DeviceCollection)⟩ : CollectorState DeviceCollection)
            (Op.refresh 9 (Fetch.fail "later") 1)).cachedData
          = some (⟨[]⟩ : DeviceCollection) ∧
      (step (⟨7, none, 3, 7, some (⟨[]⟩ : DeviceCollection)⟩ : CollectorState DeviceCollection)
            (Op.refresh 9 (Fetch.fail "later") 1)).cacheTimestamp = 7 := by
  have hwf : OpsWf [Op.refresh 5 (Fetch.fail "boom") 2,
      Op.refresh 7 (Fetch.ok (⟨[]⟩ : DeviceCollection)) 3] := by
    intro op hop
    simp only [List.mem_cons, List.mem_singleton] at hop
    rcases hop with rfl | rfl | h
    · exact (by norm_num : (0:Int) < 5)
    · exact (by norm_num : (0:Int) < 7)
    · simp at h
  have hmain := c6_refresh_state_invariant DeviceCollection _ hwf
  refine ⟨hwf, hmain.1, ?_⟩
  have hstep := hmain.2 ⟨7, none, 3, 7, some ⟨[]⟩⟩ (Op.refresh 9 (Fetch.fail "later") 1) (by decide)
  exact ⟨hstep.1, hstep.2⟩

/-- C7: every observation either weather projection path emits for a
device carries as its module label the provided module name when it is
non-empty, and the deterministic fallback `"id-" ++ ID` when the provided
name is empty. -/
theorem c7_display_name_fallback (now th : Int) (dev : Device) (st hn : String) :
    (∀ o ∈ collectData now th dev st hn,
        o.labels = [if dev.ModuleName = "" then "id-" ++ dev.ID else dev.ModuleName, st, hn]) ∧
      ∀ o ∈ collectWeatherDeviceV2 now th dev st hn,
        o.labels = ["weather", dev.ID, hn,
          if dev.ModuleName = "" then "id-" ++ dev.ID else dev.ModuleName, st] := by
  exact ⟨fun o ho => (collectData_char now th dev st hn o ho).1,
    fun o ho => (collectWeatherDeviceV2_char now th dev st hn o ho).1⟩

/-- C7 (witness): a concrete fresh device `{id: "dev1", name: ""}` is
emitted with the fallback label `"id-dev1"`. -/
theorem c7_display_name_fallback_witness :
    (⟨.updated, ["id-dev1", "stat", "home"], 1700000000⟩ : Observation) ∈
        collectData (timeUnix 1700000000) 3600
          ⟨"dev1", "", "home", "stat", none, none, none,
            ⟨some 1700000000, some 20, none, none, none, none, none, none, none⟩⟩
          "stat" "home" ∧
      (⟨.updated, ["id-dev1", "stat", "home"], 1700000000⟩ : Observation).labels
        = ["id-dev1", "stat", "home"] := by
  refine ⟨by decide, ?_⟩
  have := (c7_display_name_fallback (timeUnix 1700000000) 3600
    ⟨"dev1", "", "home", "stat", none, none, none,
      ⟨some 1700000000, some 20, none, none, none, none, none, none, none⟩⟩
    "stat" "home").1 ⟨.updated, ["id-dev1", "stat", "home"], 1700000000⟩ (by decide)
  rw [this]
  decide

/-- C10: a weather item whose dashboard data carries no measurement
timestamp at all (`LastMeasure` nil) contributes zero observations on both
weather projection paths — not even the `updated` observation —
independent of its metric values and of the stale threshold. -/
theorem c10_no_timestamp_no_observations (now th : Int) (dev : Device)
    (st hn : String) (h : dev.DashboardData.LastMeasure = none) :
    collectData now th dev st hn = [] ∧ collectWeatherDeviceV2 now th dev st hn = [] := by
  constructor
  · simp only [collectData]
    rw [h]
  · simp only [collectWeatherDeviceV2]
    rw [h]

/-- C10 (witness): a concrete device with every metric present but no
measurement timestamp yields an empty projection on both paths. -/
theorem c10_no_timestamp_no_observations_witness :
    ((⟨"d9", "Mod9", "home", "stat", some 80, some 60, some 70,
          ⟨none, some 21, some 50, some 600, some 38, some 1010, some 12, some 180, some 3⟩⟩ :
        Device).DashboardData.LastMeasure = none) ∧
      collectData 1700000000 3600
          ⟨"d9", "Mod9", "home", "stat", some 80, some 60, some 70,
            ⟨none, some 21, some 50, some 600, some 38, some 1010, some 12, some 180, some 3⟩⟩
          "stat" "home" = [] ∧
      collectWeatherDeviceV2 1700000000 3600
          ⟨"d9", "Mod9", "home", "stat", some 80, some 60, some 70,
            ⟨none, some 21, some 50, some 600, some 38, some 1010, some 12, some 180, some 3⟩⟩
          "stat" "home" = [] := by
  refine ⟨rfl, ?_⟩
  exact c10_no_timestamp_no_observations 1700000000 3600
    ⟨"d9", "Mod9", "home", "stat", some 80, some 60, some 70,
      ⟨none, some 21, some 50, some 600, some 38, some 1010, some 12, some 180, some 3⟩⟩
    "stat" "home" rfl

/-- C3 (counterexample): the trigger step does not mark `lastAttempt`
itself — that happens only when the spawned refresh goroutine runs — so
two trigger calls zero seconds apart (less than the interval of 100) can
both spawn a refresh, and two upstream fetches are performed. -/
theorem c3_counterexample :
    ((200 : Int) - 200 < 100) ∧
      (schedRun 100 [SchedOp.scrape 200, SchedOp.scrape 200,
          SchedOp.run 0 (Fetch.ok ⟨[]⟩) 1, SchedOp.run 0 (Fetch.ok ⟨[]⟩) 1]).fetchCount = 2 := by
  constructor
  · decide
  · rfl

/-- C3 (amended): the trigger spawns one background refresh when due and
is a no-op otherwise; `lastAttempt` is only recorded when the spawned
refresh itself executes, so single-flight holds sequentially: if the
spawned refresh runs before the next trigger, a second trigger within
less than the refresh interval performs no further fetch. -/
theorem c3_sequential_single_flight (iv t1 t2 : Int) (res : Fetch DeviceCollection)
    (dur : Int) (h1 : t1 - 0 ≥ iv) (h2 : t2 - t1 < iv) :
    (schedRun iv [SchedOp.scrape t1, SchedOp.run 0 res dur, SchedOp.scrape t2]).fetchCount = 1 ∧
      (schedRun iv [SchedOp.scrape t1, SchedOp.run 0 res dur, SchedOp.scrape t2]).pending = [] := by
  have h1' : iv ≤ t1 := by omega
  have h2' : ¬ iv ≤ t2 - t1 := by omega
  cases res with
  | ok data =>
    constructor <;>
      simp [schedRun, schedStep, RefreshData, initState, h1', h2']
  | fail e =>
    constructor <;>
      simp [schedRun, schedStep, RefreshData, initState, h1', h2']

/-- C3 (witness): the sequential single-flight property evaluated on a
concrete trigger/run/trigger sequence. -/
theorem c3_sequential_single_flight_witness :
    ((150 : Int) - 0 ≥ 100) ∧ ((200 : Int) - 150 < 100) ∧
      (schedRun 100 [SchedOp.scrape 150, SchedOp.run 0 (Fetch.ok ⟨[]⟩) 1,
          SchedOp.scrape 200]).fetchCount = 1 ∧
      (schedRun 100 [SchedOp.scrape 150, SchedOp.run 0 (Fetch.ok ⟨[]⟩) 1,
          SchedOp.scrape 200]).pending = [] := by
  refine ⟨by decide, by decide, ?_⟩
  exact c3_sequential_single_flight 100 150 200 (Fetch.ok ⟨[]⟩) 1 (by decide) (by decide)

/-- C5: the up/down health observation carries value 1 exactly when the
last refresh attempt produced no error and at least one successful
refresh has ever occurred (in particular it is 0 before any attempt), on
the legacy collector and on both V2 sources. -/
theorem c5_up_indicator_iff (α : Type) :
    (∀ (ops : List (Op α)) (iv : Int), OpsWf ops →
        (((⟨.netatmoUp, [], 1⟩ : Observation) ∈ legacyMeta (runTrace ops) iv) ↔
          ((∃ n dat d, lastAttempt? ops = some (n, Fetch.ok dat, d)) ∧
            ∃ op ∈ ops, Op.success op = true))) ∧
      (∀ (opsW : List (Op DeviceCollection)) (enW enH : Bool) (iv th : Int)
          (hc : V2CacheState HomecoachResponse), OpsWf opsW →
        (((⟨.v2WeatherUp, [], 1⟩ : Observation) ∈
            collectWeatherMetaV2 ⟨enW, enH, iv, th, runTraceV2 opsW, hc⟩) ↔
          ((∃ n dat d, lastAttempt? opsW = some (n, Fetch.ok dat, d)) ∧
            ∃ op ∈ opsW, Op.success op = true))) ∧
      ∀ (opsH : List (Op HomecoachResponse)) (enW enH : Bool) (iv th : Int)
          (w : V2CacheState DeviceCollection), OpsWf opsH →
        (((⟨.v2HomecoachUp, [], 1⟩ : Observation) ∈
            collectHomecoachMetaV2 ⟨enW, enH, iv, th, w, runTraceV2 opsH⟩) ↔
          ((∃ n dat d, lastAttempt? opsH = some (n, Fetch.ok dat, d)) ∧
            ∃ op ∈ opsH, Op.success op = true)) := by
  refine ⟨?_, ?_, ?_⟩
  · intro ops iv h
    rw [mem_legacyMeta_up_iff, lastState_ok_iff ops h, last_ok_and_success_iff]
  · intro opsW enW enH iv th hc h
    rw [mem_weatherMetaV2_up_iff, last_ok_and_success_iff]
    exact lastStateV2_ok_iff opsW h
  · intro opsH enW enH iv th w h
    rw [mem_homecoachMetaV2_up_iff, last_ok_and_success_iff]
    exact lastStateV2_ok_iff opsH h

/-- C5 (witness): the up-indicator equivalence evaluated on a concrete
trace whose last attempt succeeded. -/
theorem c5_up_indicator_iff_witness :
    OpsWf [Op.refresh 5 (Fetch.ok (⟨[]⟩ : DeviceCollection)) 1] ∧
      (((⟨.netatmoUp, [], 1⟩ : Observation) ∈
          legacyMeta (runTrace [Op.refresh 5 (Fetch.ok (⟨[]⟩ : DeviceCollection)) 1]) 100) ↔
        ((∃ n dat d, lastAttempt? [Op.refresh 5 (Fetch.ok (⟨[]⟩ : DeviceCollection)) 1]
              = some (n, Fetch.ok dat, d)) ∧
          ∃ op ∈ [Op.refresh 5 (Fetch.ok (⟨[]⟩ : DeviceCollection)) 1],
            Op.success op = true)) := by
  have hwf : OpsWf [Op.refresh 5 (Fetch.ok (⟨[]⟩ : DeviceCollection)) 1] := by
    intro op hop
    rw [List.mem_singleton] at hop
    subst hop
    exact (by norm_num : (0:Int) < 5)
  exact ⟨hwf, (c5_up_indicator_iff DeviceCollection).1
    [Op.refresh 5 (Fetch.ok (⟨[]⟩ : DeviceCollection)) 1] 100 hwf⟩

/-- C8: a source disabled by configuration contributes nothing to a V2
collect call — no observation of the output is attributable to it, in any
cache state. -/
theorem c8_disabled_source_silent (s : V2State) (now : Int) :
    (s.enableWeather = false → ∀ o ∈ CollectV2 s now, ¬ fromWeatherV2 o) ∧
      (s.enableHomecoach = false → ∀ o ∈ CollectV2 s now, ¬ fromHomecoachV2 o) := by
  constructor
  · intro hW o ho hattr
    simp only [CollectV2, hW] at ho
    simp only [Bool.false_eq_true, if_false, List.nil_append] at ho
    cases hH : s.enableHomecoach with
    | false => rw [hH] at ho; simp at ho
    | true =>
      rw [hH] at ho
      simp only [if_true] at ho
      rcases List.mem_append.mp ho with hm | hm
      · obtain ⟨hd, _⟩ := mem_collectHomecoachMetaV2 s o hm
        rcases hattr with h1 | ⟨h2, _⟩
        · exact (homecoach_status_descs_not_other _ hd).1 h1
        · exact (homecoach_status_descs_not_other _ hd).2 h2
      · obtain ⟨hd, hl⟩ := mem_collectHomecoachV2 s o hm
        rcases hattr with h1 | ⟨_, h3⟩
        · exact (sensor_descs_not_status _ hd).1 h1
        · rw [hl] at h3
          simp at h3
  · intro hH o ho hattr
    simp only [CollectV2, hH] at ho
    simp only [Bool.false_eq_true, if_false, List.append_nil] at ho
    cases hW : s.enableWeather with
    | false => rw [hW] at ho; simp at ho
    | true =>
      rw [hW] at ho
      simp only [if_true] at ho
      rcases List.mem_append.mp ho with hm | hm
      · obtain ⟨hd, _⟩ := mem_collectWeatherMetaV2 s o hm
        rcases hattr with h1 | ⟨h2, _⟩
        · exact (weather_status_descs_not_other _ hd).1 h1
        · exact (weather_status_descs_not_other _ hd).2 h2
      · obtain ⟨hd, hl⟩ := mem_collectWeatherV2 s now o hm
        rcases hattr with h1 | ⟨_, h3⟩
        · exact (sensor_descs_not_status _ hd).2 h1
        · rw [hl] at h3
          simp at h3

/-- C8 (witness): with the weather source disabled and the homecoach
source enabled, a concrete emitted homecoach status observation is not
attributable to the weather source. -/
theorem c8_disabled_source_silent_witness :
    ((⟨true, false, 100, 3600, initV2Cache, initV2Cache⟩ : V2State).enableHomecoach = false) ∧
      (⟨.v2WeatherUp, [], 0⟩ : Observation) ∈
        CollectV2 ⟨true, false, 100, 3600, initV2Cache, initV2Cache⟩ 1000 ∧
      ¬ fromHomecoachV2 ⟨.v2WeatherUp, [], 0⟩ := by
  refine ⟨rfl, by decide, ?_⟩
  exact (c8_disabled_source_silent ⟨true, false, 100, 3600, initV2Cache, initV2Cache⟩ 1000).2
    rfl ⟨.v2WeatherUp, [], 0⟩ (by decide)

/-- C9 (counterexample): an enabled source emits five status observations
per collect, not four — besides the up indicator, refresh interval, last
refresh time and last refresh duration, the cache-updated-time
observation is also emitted. -/
theorem c9_counterexample :
    (⟨.v2WeatherCacheTimestamp, [], 0⟩ : Observation) ∈
        CollectV2 ⟨true, false, 100, 3600, initV2Cache, initV2Cache⟩ 1000 ∧
      ((CollectV2 ⟨true, false, 100, 3600, initV2Cache, initV2Cache⟩ 1000).filter
          (fun o => decide (o.desc ∈ v2WeatherStatusDescs))).length = 5 := by
  constructor
  · decide
  · decide

/-- C9 (amended): a V2 collect call emits exactly five health/status
observations per enabled source: the up indicator, the configured refresh
interval, the last-attempt timestamp, the last-attempt duration, and the
cache-updated timestamp. -/
theorem c9_five_health_observations (s : V2State) (now : Int) :
    (s.enableWeather = true →
        ((CollectV2 s now).filter
            (fun o => decide (o.desc ∈ v2WeatherStatusDescs))).length = 5) ∧
      (s.enableHomecoach = true →
        ((CollectV2 s now).filter
            (fun o => decide (o.desc ∈ v2HomecoachStatusDescs))).length = 5) := by
  constructor
  · intro hW
    have hA : (collectWeatherMetaV2 s).filter
        (fun o => decide (o.desc ∈ v2WeatherStatusDescs)) = collectWeatherMetaV2 s := by
      rw [List.filter_eq_self]
      intro o ho
      simp only [decide_eq_true_eq]
      exact (mem_collectWeatherMetaV2 s o ho).1
    have hB : (collectWeatherV2 s now).filter
        (fun o => decide (o.desc ∈ v2WeatherStatusDescs)) = [] := by
      rw [List.filter_eq_nil_iff]
      intro o ho
      simp only [decide_eq_true_eq]
      exact (sensor_descs_not_status _ (mem_collectWeatherV2 s now o ho).1).1
    have hC : ((if s.enableHomecoach = true then
          collectHomecoachMetaV2 s ++ collectHomecoachV2 s else []).filter
            (fun o => decide (o.desc ∈ v2WeatherStatusDescs))) = [] := by
      cases hH : s.enableHomecoach with
      | false => simp
      | true =>
        rw [if_pos rfl, List.filter_append, List.filter_eq_nil_iff.mpr, List.filter_eq_nil_iff.mpr,
          List.append_nil]
        · intro o ho
          simp only [decide_eq_true_eq]
          exact (sensor_descs_not_status _ (mem_collectHomecoachV2 s o ho).1).1
        · intro o ho
          simp only [decide_eq_true_eq]
          exact (homecoach_status_descs_not_other _ (mem_collectHomecoachMetaV2 s o ho).1).1
    rw [CollectV2, hW, if_pos rfl, List.filter_append, List.filter_append, hA, hB, hC]
    rfl
  · intro hH
    have hA : (collectHomecoachMetaV2 s).filter
        (fun o => decide (o.desc ∈ v2HomecoachStatusDescs)) = collectHomecoachMetaV2 s := by
      rw [List.filter_eq_self]
      intro o ho
      simp only [decide_eq_true_eq]
      exact (mem_collectHomecoachMetaV2 s o ho).1
    have hB : (collectHomecoachV2 s).filter
        (fun o => decide (o.desc ∈ v2HomecoachStatusDescs)) = [] := by
      rw [List.filter_eq_nil_iff]
      intro o ho
      simp only [decide_eq_true_eq]
      exact (sensor_descs_not_status _ (mem_collectHomecoachV2 s o ho).1).2
    have hC : ((if s.enableWeather = true then
          collectWeatherMetaV2 s ++ collectWeatherV2 s now else []).filter
            (fun o => decide (o.desc ∈ v2HomecoachStatusDescs))) = [] := by
      cases hW : s.enableWeather with
      | false => simp
      | true =>
        rw [if_pos rfl, List.filter_append, List.filter_eq_nil_iff.mpr, List.filter_eq_nil_iff.mpr,
          List.append_nil]
        · intro o ho
          simp only [decide_eq_true_eq]
          exact (sensor_descs_not_status _ (mem_collectWeatherV2 s now o ho).1).2
        · intro o ho
          simp only [decide_eq_true_eq]
          exact (weather_status_descs_not_other _ (mem_collectWeatherMetaV2 s o ho).1).1
    rw [CollectV2, hH, if_pos rfl, List.filter_append, List.filter_append, hA, hB, hC]
    simp
    rfl

/-- C9 (amended, witness): the five-status-observation count evaluated on
a concrete collector state with both sources enabled. -/
theorem c9_five_health_observations_witness :
    ((⟨true, true, 100, 3600, initV2Cache, initV2Cache⟩ : V2State).enableWeather = true) ∧
      ((CollectV2 ⟨true, true, 100, 3600, initV2Cache, initV2Cache⟩ 1000).filter
          (fun o => decide (o.desc ∈ v2WeatherStatusDescs))).length = 5 ∧
      ((CollectV2 ⟨true, true, 100, 3600, initV2Cache, initV2Cache⟩ 1000).filter
          (fun o => decide (o.desc ∈ v2HomecoachStatusDescs))).length = 5 := by
  refine ⟨rfl, ?_, ?_⟩
  · exact (c9_five_health_observations
      ⟨true, true, 100, 3600, initV2Cache, initV2Cache⟩ 1000).1 rfl
  · exact (c9_five_health_observations
      ⟨true, true, 100, 3600, initV2Cache, initV2Cache⟩ 1000).2 rfl

end NetatmoExporter
